import Mathlib

/-!
Verification of the `loadsensor` Go package (dgruber/loadsensor).

The package implements a Univa Grid Engine load sensor: a `Sensor` is a
triple of fallible string-returning callbacks, `Create` validates that all
callbacks are set and wraps the sensor slice in a `Context`, and
`Context.Run` implements the line protocol: read a line from stdin; on a
read error or end of stream call `os.Exit(1)`; on the exact line `quit`
call `os.Exit(0)`; on any other line print `begin`, then for each sensor in
order invoke the three callbacks (host name, resource name, measurement),
printing a diagnostic to stderr and skipping the sensor on the first
failure, otherwise printing `host:resource:measurement` to stdout, and
finally print `end`; then loop.

Shallow embedding choices.  The Go callbacks are effectful
`func() (string, error)` values that may answer differently on each call;
since each callback is invoked at most once per reporting cycle, we model a
callback as a pure function from the cycle index to `Except String String`
(`.error e` models a non-nil Go error with message `e`).  The input stream
is a finite list of lines; exhausting it models the end-of-stream /
read-error branch of `stdin.ReadLine`.  Process output is a single ordered
list of events tagged with the stream (stdout or stderr) they are written
to, and `os.Exit(n)` is modelled by returning the remaining-output list
together with the exit code `n`.
-/

/-- Result of one Go callback invocation: a string value or an error
message. -/
abbrev CallResult := Except String String

/-- One Go callback, modelled as a pure function of the cycle index (each
callback is called at most once per cycle). -/
abbrev CallbackFn := Nat → CallResult

/-- The Go struct `Sensor`: three function fields, each of which may be nil
(`none`). -/
structure Sensor where
  HostNameFunction : Option CallbackFn
  ResourceNameFunction : Option CallbackFn
  MeasurementFunction : Option CallbackFn

/-- The Go struct `Context`: the sensor slice owned by the engine. -/
structure Context where
  sensors : List Sensor

/-- Validation performed by `Create` on one sensor, in the order the Go
loop body checks the three fields; `some msg` is the error message of the
first nil field, `none` means the sensor passes. -/
def checkSensor (sen : Sensor) : Option String :=
  if sen.HostNameFunction.isNone then some "HostNameFunction is not set"
  else if sen.ResourceNameFunction.isNone then some "ResourceNameFunction is not set"
  else if sen.MeasurementFunction.isNone then some "MeasurementFunction is not set"
  else none

/-- The Go function `Create`: scan the sensors in order, fail with the
first validation error, otherwise wrap the slice in a `Context`. -/
def Create (s : List Sensor) : Except String Context :=
  match s.findSome? checkSensor with
  | some e => Except.error e
  | none => Except.ok { sensors := s }

/-- One output event of the running engine: a line written to stdout or a
diagnostic line written to stderr. -/
inductive Event where
  | out (line : String)
  | err (line : String)
deriving DecidableEq, Repr

/-- Lines written to stdout, in order, within a list of events. -/
def stdoutOf (evs : List Event) : List String :=
  evs.filterMap fun e =>
    match e with
    | Event.out l => some l
    | Event.err _ => none

/-- Lines written to stderr, in order, within a list of events. -/
def stderrOf (evs : List Event) : List String :=
  evs.filterMap fun e =>
    match e with
    | Event.out _ => none
    | Event.err l => some l

/-- Invocation of a possibly-nil callback field.  Inside `Run` the fields
are always non-nil: a `Context` is only obtained through `Create`, which
rejects nil callbacks, and calling a nil function in Go would panic; the
`none` branch is unreachable there and is given a default error value. -/
def invoke (f : Option CallbackFn) (cyc : Nat) : CallResult :=
  match f with
  | some g => g cyc
  | none => Except.error "nil function"

/-- The body of `Run` for one sensor in one cycle: invoke the host-name,
resource-name and measurement callbacks in that order; on the first failure
write one diagnostic to stderr and stop (the Go `continue`), otherwise
write `host:resource:measurement` to stdout.  Exactly one event is produced
per sensor per cycle. -/
def sensorStep (cyc : Nat) (sen : Sensor) : Event :=
  match invoke sen.HostNameFunction cyc with
  | Except.error e => Event.err ("error during hostname function call: " ++ e)
  | Except.ok host =>
    match invoke sen.ResourceNameFunction cyc with
    | Except.error e => Event.err ("error during resource name function call: " ++ e)
    | Except.ok resource =>
      match invoke sen.MeasurementFunction cyc with
      | Except.error e => Event.err ("error during measurement function call: " ++ e)
      | Except.ok measurement =>
        Event.out (host ++ ":" ++ resource ++ ":" ++ measurement)

/-- Which callbacks of a sensor the Go loop body actually invokes in one
cycle, in invocation order: the control flow calls the host-name function
first, calls the resource-name function only if the host-name call
succeeded, and the measurement function only if both succeeded. -/
inductive Call where
  | host
  | resource
  | measurement
deriving DecidableEq, Repr

/-- Trace of the callback invocations the Go loop body performs for one
sensor in one cycle (see `sensorStep` for the control flow). -/
def sensorCalls (cyc : Nat) (sen : Sensor) : List Call :=
  match invoke sen.HostNameFunction cyc with
  | Except.error _ => [Call.host]
  | Except.ok _ =>
    match invoke sen.ResourceNameFunction cyc with
    | Except.error _ => [Call.host, Call.resource]
    | Except.ok _ => [Call.host, Call.resource, Call.measurement]

/-- The measurement line a sensor contributes to one cycle's stdout, if
all three of its calls succeed. -/
def measLine (cyc : Nat) (sen : Sensor) : Option String :=
  match sensorStep cyc sen with
  | Event.out l => some l
  | Event.err _ => none

/-- All events of one reporting cycle: the literal stdout line `begin`,
one event per sensor in registration order, the literal stdout line
`end`. -/
def cycleEvents (cyc : Nat) (sensors : List Sensor) : List Event :=
  Event.out "begin" :: sensors.map (sensorStep cyc) ++ [Event.out "end"]

/-- The Go method `Context.Run`, over a finite input stream.  An exhausted
input models the `err != nil` branch of `stdin.ReadLine` (end of stream or
read error): `os.Exit(1)`.  The exact line `quit` is `os.Exit(0)`.  Any
other line triggers one reporting cycle and the loop continues.  The cycle
index is threaded through so callbacks can answer differently in each
cycle; the Go code carries no such state between cycles. -/
def Run (ctx : Context) : List String → Nat → List Event × Nat
  | [], _ => ([], 1)
  | line :: rest, cyc =>
    if line = "quit" then ([], 0)
    else
      let r := Run ctx rest (cyc + 1)
      (cycleEvents cyc ctx.sensors ++ r.1, r.2)

/-- The diagnostic line a sensor writes to stderr in one cycle, if one of
its calls fails. -/
def diagLine (cyc : Nat) (sen : Sensor) : Option String :=
  match sensorStep cyc sen with
  | Event.out _ => none
  | Event.err l => some l

/-- Event trace of `n` consecutive reporting cycles whose first cycle has
index `k`. -/
def cyclesEvents (ss : List Sensor) : Nat → Nat → List Event
  | 0, _ => []
  | n + 1, k => cycleEvents k ss ++ cyclesEvents ss n (k + 1)

/-!
Aliasing model of `Create`, needed to settle the defensive-copy question.
A Go slice value is a small header pointing at a shared backing array;
`Context{sensors: s}` in `Create` copies only the header, so the returned
context and the caller keep viewing the same backing array.  `Heap` maps
array ids to their current contents, a `Slice` is a header naming one
array, and an assignment `s[i] = v` performed by the caller through their
slice updates the shared array. -/

/-- A Go slice header: a reference to a backing array in the heap.  (The
package never reslices, so offset and length are omitted.) -/
structure Slice where
  id : Nat

/-- The mutable store of backing arrays. -/
structure Heap where
  arrays : Nat → List Sensor

/-- The sensors a slice currently points at. -/
def readSlice (h : Heap) (s : Slice) : List Sensor := h.arrays s.id

/-- The Go struct `Context` under the aliasing model: it holds a slice
header, not the sensor values themselves. -/
structure ContextG where
  sensors : Slice

/-- The Go function `Create` under the aliasing model: validate the
pointed-to sensors exactly as `Create` does and store the same slice
header in the context.  The heap is not touched: no copy of the backing
array is made and no side effect occurs. -/
def CreateG (h : Heap) (s : Slice) : Except String ContextG :=
  match (readSlice h s).findSome? checkSensor with
  | some e => Except.error e
  | none => Except.ok { sensors := s }

/-- The caller assigning `v` to element `i` of their slice after
construction: the shared backing array is updated in place. -/
def writeElem (h : Heap) (s : Slice) (i : Nat) (v : Sensor) : Heap :=
  { arrays := fun j => if j = s.id then (h.arrays s.id).set i v else h.arrays j }

/-- A callback that always succeeds with a fixed value. -/
def okFn (v : String) : CallbackFn := fun _ => Except.ok v

/-- A callback that always fails with a fixed message. -/
def failFn (e : String) : CallbackFn := fun _ => Except.error e

/-- Example sensor with all calls succeeding. -/
def sensorA : Sensor :=
  { HostNameFunction := some (okFn "hostA")
    ResourceNameFunction := some (okFn "mem")
    MeasurementFunction := some (okFn "42") }

/-- Example sensor whose measurement call always fails. -/
def sensorB : Sensor :=
  { HostNameFunction := some (okFn "hostA")
    ResourceNameFunction := some (okFn "load")
    MeasurementFunction := some (failFn "boom") }

/-- Example sensor with all calls succeeding on a second resource. -/
def sensorC : Sensor :=
  { HostNameFunction := some (okFn "hostA")
    ResourceNameFunction := some (okFn "swap")
    MeasurementFunction := some (okFn "7") }

/-- Example sensor whose host-name call always fails. -/
def sensorHostFail : Sensor :=
  { HostNameFunction := some (failFn "down")
    ResourceNameFunction := some (okFn "mem")
    MeasurementFunction := some (okFn "1") }

/-- Example sensor whose resource-name call always fails. -/
def sensorResFail : Sensor :=
  { HostNameFunction := some (okFn "hostA")
    ResourceNameFunction := some (failFn "nores")
    MeasurementFunction := some (okFn "1") }

/-- Concrete heap with one backing array holding `sensorA`. -/
def heap0 : Heap :=
  { arrays := fun j => if j = 0 then [sensorA] else [] }

/-- The caller's slice over the array of `heap0`. -/
def slice0 : Slice := { id := 0 }

example : Run { sensors := [sensorA, sensorB] } ["go", "quit"] 0 =
    ([Event.out "begin", Event.out "hostA:mem:42",
      Event.err "error during measurement function call: boom",
      Event.out "end"], 0) := by rfl

example : Create [sensorA, { sensorB with HostNameFunction := none }] =
    Except.error "HostNameFunction is not set" := by rfl

example : Run { sensors := [] } [] 5 = ([], 1) := by rfl

/-! Helper lemmas about the output streams and the run loop. -/

theorem stdoutOf_append (a b : List Event) :
    stdoutOf (a ++ b) = stdoutOf a ++ stdoutOf b := by
  simp [stdoutOf]

theorem stderrOf_append (a b : List Event) :
    stderrOf (a ++ b) = stderrOf a ++ stderrOf b := by
  simp [stderrOf]

theorem stdoutOf_map_sensorStep (c : Nat) (ss : List Sensor) :
    stdoutOf (ss.map (sensorStep c)) = ss.filterMap (measLine c) := by
  rw [stdoutOf, List.filterMap_map]
  rfl

theorem stderrOf_map_sensorStep (c : Nat) (ss : List Sensor) :
    stderrOf (ss.map (sensorStep c)) = ss.filterMap (diagLine c) := by
  rw [stderrOf, List.filterMap_map]
  rfl

theorem stdoutOf_cycleEvents (c : Nat) (ss : List Sensor) :
    stdoutOf (cycleEvents c ss) = "begin" :: ss.filterMap (measLine c) ++ ["end"] := by
  rw [cycleEvents, show Event.out "begin" :: ss.map (sensorStep c) ++ [Event.out "end"] =
        ([Event.out "begin"] ++ ss.map (sensorStep c)) ++ [Event.out "end"] by simp,
      stdoutOf_append, stdoutOf_append, stdoutOf_map_sensorStep]
  rfl

theorem stderrOf_cycleEvents (c : Nat) (ss : List Sensor) :
    stderrOf (cycleEvents c ss) = ss.filterMap (diagLine c) := by
  rw [cycleEvents, show Event.out "begin" :: ss.map (sensorStep c) ++ [Event.out "end"] =
        ([Event.out "begin"] ++ ss.map (sensorStep c)) ++ [Event.out "end"] by simp,
      stderrOf_append, stderrOf_append, stderrOf_map_sensorStep]
  simp [stderrOf]

theorem run_nil (ctx : Context) (k : Nat) : Run ctx [] k = ([], 1) := rfl

theorem run_quit (ctx : Context) (rest : List String) (k : Nat) :
    Run ctx ("quit" :: rest) k = ([], 0) := rfl

theorem run_cons (ctx : Context) (line : String) (rest : List String) (k : Nat)
    (h : line ≠ "quit") :
    Run ctx (line :: rest) k =
      (cycleEvents k ctx.sensors ++ (Run ctx rest (k + 1)).1, (Run ctx rest (k + 1)).2) := by
  simp [Run, h]

theorem run_append_of_not_mem (ctx : Context) (pre rest : List String) (k : Nat)
    (h : "quit" ∉ pre) :
    Run ctx (pre ++ rest) k =
      (cyclesEvents ctx.sensors pre.length k ++ (Run ctx rest (k + pre.length)).1,
       (Run ctx rest (k + pre.length)).2) := by
  induction pre generalizing k with
  | nil => simp [cyclesEvents]
  | cons a t ih =>
    have ha : a ≠ "quit" := fun hq => h (by simp [hq])
    have ht : "quit" ∉ t := fun hm => h (by simp [hm])
    rw [List.cons_append, run_cons ctx a (t ++ rest) k ha, ih (k + 1) ht]
    simp [cyclesEvents, List.length_cons]
    constructor
    · rw [Nat.add_comm t.length 1, ← Nat.add_assoc]
    · rw [Nat.add_comm t.length 1, ← Nat.add_assoc]

theorem stdoutOf_cyclesEvents (ss : List Sensor) (n k : Nat) :
    stdoutOf (cyclesEvents ss n k) =
      (List.range n).flatMap
        (fun i => "begin" :: ss.filterMap (measLine (k + i)) ++ ["end"]) := by
  induction n generalizing k with
  | zero => simp [cyclesEvents, stdoutOf]
  | succ m ih =>
    rw [cyclesEvents, stdoutOf_append, stdoutOf_cycleEvents, ih (k + 1),
        List.range_succ_eq_map, List.flatMap_cons, List.flatMap_map]
    congr 1
    apply List.flatMap_congr
    intro i _
    have h2 : k + 1 + i = k + (i + 1) := by omega
    rw [h2]

/-! Claim theorems. -/

/-- C1: for every engine and every input sequence with no `quit` line, the
stdout stream of `Run` is exactly the concatenation, in input order, of one
block per trigger line consisting of one literal `begin` line, the
measurement lines of that cycle, and one literal `end` line; distinct
cycles occupy disjoint consecutive segments, so they never interleave. -/
theorem run_framing_invariant (ctx : Context) (inputs : List String) (k : Nat)
    (h : "quit" ∉ inputs) :
    stdoutOf (Run ctx inputs k).1 =
      (List.range inputs.length).flatMap
        (fun i => "begin" :: ctx.sensors.filterMap (measLine (k + i)) ++ ["end"]) := by
  have heq := run_append_of_not_mem ctx inputs [] k h
  rw [List.append_nil] at heq
  rw [heq, show (Run ctx [] (k + inputs.length)).1 = [] from rfl, List.append_nil,
      stdoutOf_cyclesEvents]

/-- Witness for C1 at a concrete engine and input sequence. -/
theorem run_framing_invariant_witness :
    ("quit" ∉ (["go", ""] : List String)) ∧
    stdoutOf (Run { sensors := [sensorA, sensorB] } ["go", ""] 0).1 =
      (List.range (["go", ""] : List String).length).flatMap
        (fun i => "begin" :: [sensorA, sensorB].filterMap (measLine (0 + i)) ++ ["end"]) :=
  ⟨by decide, run_framing_invariant { sensors := [sensorA, sensorB] } ["go", ""] 0 (by decide)⟩

/-- C5: a line exactly equal to `quit` exits with the clean status 0 and
emits no further begin/end block, no matter how many cycles preceded it,
while lines such as `" quit "` or `"QUIT"` are ordinary trigger lines that
run a normal reporting cycle. -/
theorem quit_exact_match_shutdown :
    (∀ (ctx : Context) (pre rest : List String) (k : Nat), "quit" ∉ pre →
      Run ctx (pre ++ "quit" :: rest) k = (cyclesEvents ctx.sensors pre.length k, 0)) ∧
    (∀ (ctx : Context) (rest : List String) (k : Nat),
      Run ctx (" quit " :: rest) k =
        (cycleEvents k ctx.sensors ++ (Run ctx rest (k + 1)).1, (Run ctx rest (k + 1)).2)) ∧
    (∀ (ctx : Context) (rest : List String) (k : Nat),
      Run ctx ("QUIT" :: rest) k =
        (cycleEvents k ctx.sensors ++ (Run ctx rest (k + 1)).1, (Run ctx rest (k + 1)).2)) := by
  refine ⟨?_, ?_, ?_⟩
  · intro ctx pre rest k h
    rw [run_append_of_not_mem ctx pre ("quit" :: rest) k h, run_quit]
    simp
  · intro ctx rest k
    exact run_cons ctx " quit " rest k (by decide)
  · intro ctx rest k
    exact run_cons ctx "QUIT" rest k (by decide)

/-- Witness for C5: one preceding cycle, then `quit`, exits 0; a `" quit "`
line runs a cycle instead. -/
theorem quit_exact_match_shutdown_witness :
    Run { sensors := [sensorA] } ["go", "quit", "x"] 0 =
      (cyclesEvents [sensorA] 1 0, 0) ∧
    Run { sensors := [sensorA] } [" quit "] 0 =
      (cycleEvents 0 [sensorA] ++ (Run { sensors := [sensorA] } [] 1).1,
       (Run { sensors := [sensorA] } [] 1).2) :=
  ⟨quit_exact_match_shutdown.1 { sensors := [sensorA] } ["go"] ["x"] 0 (by decide),
   quit_exact_match_shutdown.2.1 { sensors := [sensorA] } [] 0⟩

/-- C6: exhausting the input stream (the read-error branch of
`stdin.ReadLine`) exits immediately with the abnormal status 1, distinct
from the clean status 0, emitting nothing; more generally any quit-free
input ends with status 1 once the stream is exhausted. -/
theorem eof_abnormal_exit :
    (∀ (ctx : Context) (k : Nat), Run ctx [] k = ([], 1)) ∧
    (∀ (ctx : Context) (inputs : List String) (k : Nat), "quit" ∉ inputs →
      (Run ctx inputs k).2 = 1) ∧
    (1 : Nat) ≠ 0 := by
  refine ⟨fun ctx k => rfl, ?_, by decide⟩
  intro ctx inputs k h
  have heq := run_append_of_not_mem ctx inputs [] k h
  rw [List.append_nil] at heq
  rw [heq]
  rfl

/-- Witness for C6 at a concrete engine. -/
theorem eof_abnormal_exit_witness :
    Run { sensors := [sensorA] } [] 0 = ([], 1) ∧
    (Run { sensors := [sensorA] } ["go"] 0).2 = 1 :=
  ⟨eof_abnormal_exit.1 { sensors := [sensorA] } 0,
   eof_abnormal_exit.2.1 { sensors := [sensorA] } ["go"] 0 (by decide)⟩

/-- C8: the content of trigger lines is ignored: two input sequences that
agree position-by-position on whether each line is the `quit` command give
identical output streams and exit codes for the same engine. -/
theorem trigger_content_ignored (ctx : Context) (in1 in2 : List String) (k : Nat)
    (h : in1.map (fun l => l == "quit") = in2.map (fun l => l == "quit")) :
    Run ctx in1 k = Run ctx in2 k := by
  induction in1 generalizing in2 k with
  | nil =>
    cases in2 with
    | nil => rfl
    | cons b u => simp at h
  | cons a t ih =>
    cases in2 with
    | nil => simp at h
    | cons b u =>
      simp only [List.map_cons, List.cons.injEq] at h
      obtain ⟨hab, htu⟩ := h
      by_cases hq : a = "quit"
      · have hb : b = "quit" := by
          subst hq
          have : (b == "quit") = true := by rw [← hab]; simp
          exact eq_of_beq this
        rw [hq, hb, run_quit, run_quit]
      · have hb : b ≠ "quit" := by
          intro hbq
          apply hq
          subst hbq
          have : (a == "quit") = true := by rw [hab]; simp
          exact eq_of_beq this
        rw [run_cons ctx a t k hq, run_cons ctx b u k hb, ih u (k + 1) htu]

/-- Witness for C8: the trigger lines `"go"` and `""` are interchangeable. -/
theorem trigger_content_ignored_witness :
    ((["go"] : List String).map (fun l => l == "quit") =
      (([""] : List String).map (fun l => l == "quit"))) ∧
    Run { sensors := [sensorA, sensorB] } ["go"] 0 =
      Run { sensors := [sensorA, sensorB] } [""] 0 :=
  ⟨by decide, trigger_content_ignored { sensors := [sensorA, sensorB] } ["go"] [""] 0 (by decide)⟩

/-- C10: the run loop has exactly two exit paths: the exit code is always
0 or 1, and it is 0 (the `quit` path) exactly when the input contains the
`quit` command; otherwise the loop consumes the whole input and exits 1 at
end of stream. -/
theorem run_exit_codes (ctx : Context) (inputs : List String) (k : Nat) :
    ((Run ctx inputs k).2 = 0 ∨ (Run ctx inputs k).2 = 1) ∧
    ((Run ctx inputs k).2 = 0 ↔ "quit" ∈ inputs) := by
  induction inputs generalizing k with
  | nil => simp [run_nil]
  | cons a t ih =>
    by_cases hq : a = "quit"
    · subst hq
      simp [run_quit]
    · rw [run_cons ctx a t k hq]
      have hih := ih (k + 1)
      refine ⟨hih.1, ?_⟩
      rw [show (cycleEvents k ctx.sensors ++ (Run ctx t (k + 1)).1,
            (Run ctx t (k + 1)).2).2 = (Run ctx t (k + 1)).2 from rfl,
          hih.2, List.mem_cons]
      have hne : ¬ ("quit" = a) := fun e => hq e.symm
      tauto

/-- C2: if one sensor fails any of its three calls in a cycle, its
measurement line is absent from that cycle's stdout, its diagnostic is on
stderr, every other sensor that succeeds still contributes its line in
registration order, and the cycle still closes with `end`. -/
theorem producer_failure_isolation (pre post : List Sensor) (bad : Sensor) (c : Nat)
    (d : String) (hbad : sensorStep c bad = Event.err d) :
    stdoutOf (cycleEvents c (pre ++ bad :: post)) =
      "begin" :: (pre.filterMap (measLine c) ++ post.filterMap (measLine c)) ++ ["end"] ∧
    d ∈ stderrOf (cycleEvents c (pre ++ bad :: post)) ∧
    (∀ s, s ∈ pre ++ post → ∀ l, measLine c s = some l →
      l ∈ stdoutOf (cycleEvents c (pre ++ bad :: post))) := by
  have hm : measLine c bad = none := by rw [measLine, hbad]
  have hd : diagLine c bad = some d := by rw [diagLine, hbad]
  have hout : stdoutOf (cycleEvents c (pre ++ bad :: post)) =
      "begin" :: (pre.filterMap (measLine c) ++ post.filterMap (measLine c)) ++ ["end"] := by
    rw [stdoutOf_cycleEvents, List.filterMap_append, List.filterMap_cons_none hm]
  refine ⟨hout, ?_, ?_⟩
  · rw [stderrOf_cycleEvents, List.filterMap_append, List.filterMap_cons_some hd]
    simp
  · intro s hs l hl
    rw [hout]
    rcases List.mem_append.mp hs with h1 | h2
    · have : l ∈ pre.filterMap (measLine c) := List.mem_filterMap.mpr ⟨s, h1, hl⟩
      simp [this]
    · have : l ∈ post.filterMap (measLine c) := List.mem_filterMap.mpr ⟨s, h2, hl⟩
      simp [this]

/-- Witness for C2: `sensorB` (failing measurement) between two healthy
sensors suppresses only its own line. -/
theorem producer_failure_isolation_witness :
    sensorStep 0 sensorB = Event.err "error during measurement function call: boom" ∧
    stdoutOf (cycleEvents 0 ([sensorA] ++ sensorB :: [sensorC])) =
      ["begin", "hostA:mem:42", "hostA:swap:7", "end"] :=
  ⟨rfl, ((producer_failure_isolation [sensorA] [sensorC] sensorB 0
      "error during measurement function call: boom" rfl).1).trans (by decide)⟩

/-- C3: when every sensor's three callbacks succeed in every cycle, each
cycle's stdout is `begin`, then exactly one `host:resource:measurement`
line per sensor in registration (insertion) order, then `end`; the
position-to-sensor correspondence is the same in every cycle. -/
theorem order_preservation (ss : List Sensor) (H R M : Sensor → Nat → String)
    (h : ∀ s ∈ ss, ∀ c, invoke s.HostNameFunction c = Except.ok (H s c) ∧
        invoke s.ResourceNameFunction c = Except.ok (R s c) ∧
        invoke s.MeasurementFunction c = Except.ok (M s c)) (c : Nat) :
    stdoutOf (cycleEvents c ss) =
      "begin" :: ss.map (fun s => H s c ++ ":" ++ R s c ++ ":" ++ M s c) ++ ["end"] := by
  rw [stdoutOf_cycleEvents]
  have : ss.filterMap (measLine c) =
      ss.map (fun s => H s c ++ ":" ++ R s c ++ ":" ++ M s c) := by
    induction ss with
    | nil => rfl
    | cons s t ih =>
      have hs := h s (List.mem_cons_self s t) c
      have hline : measLine c s = some (H s c ++ ":" ++ R s c ++ ":" ++ M s c) := by
        rw [measLine, sensorStep, hs.1, hs.2.1, hs.2.2]
      rw [List.filterMap_cons_some hline, List.map_cons,
          ih (fun x hx => h x (List.mem_cons_of_mem s hx))]
  rw [this]

/-- Witness for C3 at a concrete all-succeeding engine and cycle 5. -/
theorem order_preservation_witness :
    (∀ s ∈ [sensorA], ∀ c, invoke s.HostNameFunction c = Except.ok "hostA" ∧
        invoke s.ResourceNameFunction c = Except.ok "mem" ∧
        invoke s.MeasurementFunction c = Except.ok "42") ∧
    stdoutOf (cycleEvents 5 [sensorA]) = ["begin", "hostA:mem:42", "end"] := by
  constructor
  · intro s hs c
    rw [List.mem_singleton] at hs
    subst hs
    exact ⟨rfl, rfl, rfl⟩
  · exact (order_preservation [sensorA] (fun _ _ => "hostA") (fun _ _ => "mem")
      (fun _ _ => "42")
      (by
        intro s hs c
        rw [List.mem_singleton] at hs
        subst hs
        exact ⟨rfl, rfl, rfl⟩) 5).trans (by decide)

/-- C9: the three callbacks are tried in the fixed order host-name,
resource-name, measurement, a failure short-circuits the remaining calls,
and the single event the sensor produces that cycle is the one diagnostic
naming the first failing call. -/
theorem callback_order_short_circuit (sen : Sensor) (c : Nat) (e : String) :
    (invoke sen.HostNameFunction c = Except.error e →
      sensorCalls c sen = [Call.host] ∧
      sensorStep c sen = Event.err ("error during hostname function call: " ++ e) ∧
      stderrOf [sensorStep c sen] = ["error during hostname function call: " ++ e]) ∧
    (∀ h, invoke sen.HostNameFunction c = Except.ok h →
      invoke sen.ResourceNameFunction c = Except.error e →
      sensorCalls c sen = [Call.host, Call.resource] ∧
      sensorStep c sen = Event.err ("error during resource name function call: " ++ e) ∧
      stderrOf [sensorStep c sen] = ["error during resource name function call: " ++ e]) ∧
    (∀ h r, invoke sen.HostNameFunction c = Except.ok h →
      invoke sen.ResourceNameFunction c = Except.ok r →
      invoke sen.MeasurementFunction c = Except.error e →
      sensorCalls c sen = [Call.host, Call.resource, Call.measurement] ∧
      sensorStep c sen = Event.err ("error during measurement function call: " ++ e) ∧
      stderrOf [sensorStep c sen] = ["error during measurement function call: " ++ e]) := by
  refine ⟨?_, ?_, ?_⟩
  · intro hh
    refine ⟨by rw [sensorCalls, hh], by rw [sensorStep, hh], ?_⟩
    rw [sensorStep, hh]
    rfl
  · intro h hh hr
    refine ⟨by rw [sensorCalls, hh, hr], by rw [sensorStep, hh, hr], ?_⟩
    rw [sensorStep, hh, hr]
    rfl
  · intro h r hh hr hm
    refine ⟨by rw [sensorCalls, hh, hr], by rw [sensorStep, hh, hr, hm], ?_⟩
    rw [sensorStep, hh, hr, hm]
    rfl

/-- Witness for C9 at the three concrete failing sensors. -/
theorem callback_order_short_circuit_witness :
    invoke sensorHostFail.HostNameFunction 0 = Except.error "down" ∧
    sensorCalls 0 sensorHostFail = [Call.host] ∧
    invoke sensorResFail.ResourceNameFunction 0 = Except.error "nores" ∧
    sensorCalls 0 sensorResFail = [Call.host, Call.resource] ∧
    invoke sensorB.MeasurementFunction 0 = Except.error "boom" ∧
    sensorCalls 0 sensorB = [Call.host, Call.resource, Call.measurement] :=
  ⟨rfl, ((callback_order_short_circuit sensorHostFail 0 "down").1 rfl).1,
   rfl, ((callback_order_short_circuit sensorResFail 0 "nores").2.1 "hostA" rfl rfl).1,
   rfl, ((callback_order_short_circuit sensorB 0 "boom").2.2 "hostA" "load" rfl rfl rfl).1⟩

/-- A sensor passes the `Create` validation exactly when none of its three
callback fields is nil. -/
theorem checkSensor_eq_none_iff (sen : Sensor) :
    checkSensor sen = none ↔
      sen.HostNameFunction ≠ none ∧ sen.ResourceNameFunction ≠ none ∧
        sen.MeasurementFunction ≠ none := by
  rcases sen with ⟨h, r, m⟩
  cases h <;> cases r <;> cases m <;> simp [checkSensor]

/-- C4: `Create` fails (with a validation error and no engine) exactly
when some sensor in the sequence has a nil host-name, resource-name or
measurement callback; when every sensor is fully specified, including for
the empty sequence, it succeeds and returns the engine. -/
theorem create_validation (s : List Sensor) :
    ((∃ e, Create s = Except.error e) ↔
      ∃ sen ∈ s, sen.HostNameFunction = none ∨ sen.ResourceNameFunction = none ∨
        sen.MeasurementFunction = none) ∧
    ((∀ sen ∈ s, sen.HostNameFunction ≠ none ∧ sen.ResourceNameFunction ≠ none ∧
        sen.MeasurementFunction ≠ none) → Create s = Except.ok { sensors := s }) := by
  cases hf : s.findSome? checkSensor with
  | none =>
    have hall : ∀ sen ∈ s, checkSensor sen = none := List.findSome?_eq_none_iff.mp hf
    constructor
    · constructor
      · rintro ⟨e, he⟩
        rw [Create, hf] at he
        cases he
      · rintro ⟨sen, hmem, hbad⟩
        have hok := (checkSensor_eq_none_iff sen).mp (hall sen hmem)
        rcases hbad with hb | hb | hb
        · exact absurd hb hok.1
        · exact absurd hb hok.2.1
        · exact absurd hb hok.2.2
    · intro _
      rw [Create, hf]
  | some e =>
    obtain ⟨sen, hmem, hsen⟩ := List.exists_of_findSome?_eq_some hf
    have hne : checkSensor sen ≠ none := by rw [hsen]; exact Option.some_ne_none e
    have hbad : sen.HostNameFunction = none ∨ sen.ResourceNameFunction = none ∨
        sen.MeasurementFunction = none := by
      by_contra hcon
      push_neg at hcon
      exact hne ((checkSensor_eq_none_iff sen).mpr hcon)
    constructor
    · constructor
      · intro _
        exact ⟨sen, hmem, hbad⟩
      · intro _
        exact ⟨e, by rw [Create, hf]⟩
    · intro hall
      have hok := hall sen hmem
      rcases hbad with hb | hb | hb
      · exact absurd hb hok.1
      · exact absurd hb hok.2.1
      · exact absurd hb hok.2.2

/-- Witness for C4: a fully specified sensor is accepted and a sensor with
a nil host-name callback is rejected. -/
theorem create_validation_witness :
    Create [sensorA] = Except.ok { sensors := [sensorA] } ∧
    (∃ e, Create [{ HostNameFunction := none
                    ResourceNameFunction := some (okFn "r")
                    MeasurementFunction := some (okFn "1") }] = Except.error e) := by
  constructor
  · apply (create_validation [sensorA]).2
    intro sen hs
    rw [List.mem_singleton] at hs
    subst hs
    refine ⟨?_, ?_, ?_⟩ <;> simp [sensorA]
  · apply (create_validation _).1.mpr
    exact ⟨_, List.mem_singleton.mpr rfl, Or.inl rfl⟩

/-- C7 counterexample: `Create` does not make a defensive copy.  Under the
slice-aliasing model (a Go slice is a header over a shared backing array,
and `Context{sensors: s}` copies only the header), constructing an engine
over the caller's slice and then writing `sensorB` into element 0 of the
caller's slice changes the engine's per-cycle stdout from
`begin / hostA:mem:42 / end` to `begin / end`. -/
theorem create_defensive_copy_counterexample :
    CreateG heap0 slice0 = Except.ok { sensors := slice0 } ∧
    stdoutOf (cycleEvents 0 (readSlice heap0 slice0)) = ["begin", "hostA:mem:42", "end"] ∧
    stdoutOf (cycleEvents 0 (readSlice (writeElem heap0 slice0 0 sensorB) slice0)) =
      ["begin", "end"] ∧
    stdoutOf (cycleEvents 0 (readSlice (writeElem heap0 slice0 0 sensorB) slice0)) ≠
      stdoutOf (cycleEvents 0 (readSlice heap0 slice0)) := by
  refine ⟨rfl, by decide, by decide, by decide⟩

/-- C7 amended: `Create` validates the sensors and is itself free of side
effects, but it stores the caller's slice header rather than a copy: after
the caller assigns element `i` of their slice, the engine's sensor
sequence is the updated backing array. -/
theorem create_aliases_caller_slice (h : Heap) (s : Slice) (ctx : ContextG)
    (i : Nat) (v : Sensor) (hc : CreateG h s = Except.ok ctx) :
    ctx.sensors = s ∧
    readSlice (writeElem h s i v) ctx.sensors = (readSlice h s).set i v := by
  have hs : ctx.sensors = s := by
    rw [CreateG] at hc
    cases hf : (readSlice h s).findSome? checkSensor with
    | none =>
      rw [hf] at hc
      cases hc
      rfl
    | some e =>
      rw [hf] at hc
      cases hc
  refine ⟨hs, ?_⟩
  rw [hs]
  show (writeElem h s i v).arrays s.id = (readSlice h s).set i v
  rw [writeElem]
  simp [readSlice]

/-- Witness for C7's amended statement at the concrete heap and slice. -/
theorem create_aliases_caller_slice_witness :
    CreateG heap0 slice0 = Except.ok { sensors := slice0 } ∧
    ({ sensors := slice0 } : ContextG).sensors = slice0 ∧
    readSlice (writeElem heap0 slice0 0 sensorB) ({ sensors := slice0 } : ContextG).sensors =
      (readSlice heap0 slice0).set 0 sensorB :=
  ⟨rfl, (create_aliases_caller_slice heap0 slice0 { sensors := slice0 } 0 sensorB rfl).1,
   (create_aliases_caller_slice heap0 slice0 { sensors := slice0 } 0 sensorB rfl).2⟩
